import Mathlib

/-!
# k3s server bootstrap (`pkg/server/server.go`): token binding, token store, start-up sequencing

A shallow embedding of `FormatToken`, `writeToken`, `readTokenFile`, `printTokens`,
`writeKubeConfig`, `setupDataDirAndChdir`, `startNorman` and `StartServer`.

Conventions of the embedding.

* A Go `string` is a Lean `String` (a sequence of Unicode scalar values); the byte view
  `[]byte(s)` is its UTF-8 encoding and `len(s)` its UTF-8 byte length.  Go strings holding
  invalid UTF-8 are outside the model.
* Bytes and 32/64-bit words are `Nat`s, reduced `% 2^w` wherever the Go arithmetic wraps.
* A Go `error` value is its message; a `(T, error)` result is a pair with `Option Error`.
* Stateful code threads an explicit `State` (file system, working directory, event trace).
* Collaborators living outside the package (control plane, norman, the TLS front-end,
  `clientaccess`, `resolvehome`, `path/filepath`, `strconv`) are fields of `Env`.
-/

namespace K3s

/-! ## `crypto/sha256` -/

namespace Sha256

/-- Modelled from the spec: the digest of the root of trust is SHA-256 (scenario C writes
`hex(sha256(...))`); `crypto/sha256` is the Go standard library and is not under `src/`.
These are the round constants `_K` of FIPS 180-4, in decimal. -/
def K : List Nat :=
  [1116352408, 1899447441, 3049323471, 3921009573, 961987163, 1508970993,
   2453635748, 2870763221, 3624381080, 310598401, 607225278, 1426881987,
   1925078388, 2162078206, 2614888103, 3248222580, 3835390401, 4022224774,
   264347078, 604807628, 770255983, 1249150122, 1555081692, 1996064986,
   2554220882, 2821834349, 2952996808, 3210313671, 3336571891, 3584528711,
   113926993, 338241895, 666307205, 773529912, 1294757372, 1396182291,
   1695183700, 1986661051, 2177026350, 2456956037, 2730485921, 2820302411,
   3259730800, 3345764771, 3516065817, 3600352804, 4094571909, 275423344,
   430227734, 506948616, 659060556, 883997877, 958139571, 1322822218,
   1537002063, 1747873779, 1955562222, 2024104815, 2227730452, 2361852424,
   2428436474, 2756734187, 3204031479, 3329325298]

/-- The eight 32-bit chaining values `h[0..7]` of a digest. -/
structure Hash where
  h0 : Nat
  h1 : Nat
  h2 : Nat
  h3 : Nat
  h4 : Nat
  h5 : Nat
  h6 : Nat
  h7 : Nat
deriving DecidableEq, Repr

/-- The initial chaining values (`init0 .. init7`), in decimal. -/
def init : Hash :=
  ⟨1779033703, 3144134277, 1013904242, 2773480762, 1359893119, 2600822924, 528734635, 1541459225⟩

/-- Truncation to `uint32`. -/
def u32 (x : Nat) : Nat := x % 2 ^ 32

/-- Right rotation of a 32-bit word (`bits.RotateLeft32(x, -n)`). -/
def rotr (x n : Nat) : Nat := u32 ((x >>> n) ||| (x <<< (32 - n)))

/-- Bitwise complement of a 32-bit word (`^x`). -/
def not32 (x : Nat) : Nat := x ^^^ 0xffffffff

/-- Big-endian load of the first four bytes of `p`. -/
def be32 (p : List Nat) : Nat :=
  u32 ((p.getD 0 0 <<< 24) ||| (p.getD 1 0 <<< 16) ||| (p.getD 2 0 <<< 8) ||| p.getD 3 0)

/-- The words `w[0..15]` of a 64-byte block, newest first (`w[15]` is the head). -/
def loadWords : Nat → List Nat → List Nat → List Nat
  | 0, _, acc => acc
  | n + 1, p, acc => loadWords n (p.drop 4) (be32 p :: acc)

/-- Extends the schedule by `n` words; `w` is kept newest first, so that `w[i-2]`,
`w[i-7]`, `w[i-15]` and `w[i-16]` sit at offsets 1, 6, 14 and 15. -/
def extend : Nat → List Nat → List Nat
  | 0, w => w
  | n + 1, w =>
    let v1 := w.getD 1 0
    let t1 := rotr v1 17 ^^^ rotr v1 19 ^^^ (v1 >>> 10)
    let v2 := w.getD 14 0
    let t2 := rotr v2 7 ^^^ rotr v2 18 ^^^ (v2 >>> 3)
    extend n (u32 (t1 + w.getD 6 0 + t2 + w.getD 15 0) :: w)

/-- The message schedule `w[0..63]` of a block, oldest first. -/
def schedule (p : List Nat) : List Nat := (extend 48 (loadWords 16 p [])).reverse

/-- One round of the compression loop on the working variables `a .. h`. -/
def round (v : Hash) (k w : Nat) : Hash :=
  let t1 := u32 (v.h7 + (rotr v.h4 6 ^^^ rotr v.h4 11 ^^^ rotr v.h4 25)
              + ((v.h4 &&& v.h5) ^^^ (not32 v.h4 &&& v.h6)) + k + w)
  let t2 := u32 ((rotr v.h0 2 ^^^ rotr v.h0 13 ^^^ rotr v.h0 22)
              + ((v.h0 &&& v.h1) ^^^ (v.h0 &&& v.h2) ^^^ (v.h1 &&& v.h2)))
  ⟨u32 (t1 + t2), v.h0, v.h1, v.h2, u32 (v.h3 + t1), v.h4, v.h5, v.h6⟩

/-- The 64 rounds, consuming the constants and the schedule in step. -/
def rounds : List Nat → List Nat → Hash → Hash
  | k :: ks, w :: ws, v => rounds ks ws (round v k w)
  | _, _, v => v

/-- Compression of one 64-byte block into the chaining values. -/
def block (d : Hash) (p : List Nat) : Hash :=
  let v := rounds K (schedule p) d
  ⟨u32 (d.h0 + v.h0), u32 (d.h1 + v.h1), u32 (d.h2 + v.h2), u32 (d.h3 + v.h3),
   u32 (d.h4 + v.h4), u32 (d.h5 + v.h5), u32 (d.h6 + v.h6), u32 (d.h7 + v.h7)⟩

/-- The loop of `blockGeneric`: `n` whole blocks of `p` are compressed in order. -/
def blocks : Nat → Hash → List Nat → Hash
  | 0, d, _ => d
  | n + 1, d, p => blocks n (block d p) (p.drop 64)

/-- Big-endian bytes of a 64-bit word (`binary.BigEndian.PutUint64`). -/
def putUint64 (x : Nat) : List Nat :=
  [(x >>> 56) % 256, (x >>> 48) % 256, (x >>> 40) % 256, (x >>> 32) % 256,
   (x >>> 24) % 256, (x >>> 16) % 256, (x >>> 8) % 256, x % 256]

/-- Big-endian bytes of a 32-bit word (`binary.BigEndian.PutUint32`). -/
def putUint32 (x : Nat) : List Nat :=
  [(x >>> 24) % 256, (x >>> 16) % 256, (x >>> 8) % 256, x % 256]

/-- The padding appended by `checkSum`: a `0x80` byte, zeros up to 56 bytes modulo 64, and the
message length in bits as a 64-bit big-endian word. -/
def padding (len : Nat) : List Nat :=
  let t := if len % 64 < 56 then 56 - len % 64 else 64 + 56 - len % 64
  0x80 :: List.replicate (t - 1) 0 ++ putUint64 ((len <<< 3) % 2 ^ 64)

/-- Modelled from the spec: the digest named by scenario C, `sha256`.  The function
`sha256.Sum256` belongs to the Go standard library and is not under `src/`; this is the algorithm
of FIPS 180-4 (padding, then the block loop, then the eight words in big-endian order), checked
below against the published test vectors. -/
def Sum256 (data : List Nat) : List Nat :=
  let p := data ++ padding data.length
  let d := blocks (p.length / 64) init p
  putUint32 d.h0 ++ putUint32 d.h1 ++ putUint32 d.h2 ++ putUint32 d.h3 ++
  putUint32 d.h4 ++ putUint32 d.h5 ++ putUint32 d.h6 ++ putUint32 d.h7

end Sha256

/-! ## Strings, bytes and `encoding/hex` -/

/-- The byte view `[]byte(s)` of a string: its UTF-8 encoding. -/
def bytes (s : String) : List Nat := s.toUTF8.data.toList.map UInt8.toNat

/-- The builtin `len(s)`: the number of bytes of a string. -/
def len (s : String) : Nat := s.utf8ByteSize

/-- The digit table of `encoding/hex`. -/
def hextable : List Char := "0123456789abcdef".toList

/-- The lowercase hexadecimal text of a byte sequence (`hex.EncodeToString`). -/
def hexEncode : List Nat → List Char
  | [] => []
  | v :: vs => hextable.getD (v >>> 4) '0' :: hextable.getD (v &&& 0x0f) '0' :: hexEncode vs

/-- The hexadecimal SHA-256 fingerprint of a string: `hex.EncodeToString(digest[:])` for
`digest := sha256.Sum256([]byte(certs))`. -/
def hexDigest (certs : String) : String := String.mk (hexEncode (Sha256.Sum256 (bytes certs)))

/-! ## `FormatToken` -/

/-- The function `FormatToken` of `server.go`. -/
def FormatToken (token : String) (certs : String) : String :=
  if len token = 0 then
    token
  else
    let pfx := "K10"
    let pfx := if len certs > 0 then "K10" ++ hexDigest certs ++ "::" else pfx
    pfx ++ token

/-- The characters 3 .. 66 of a token: the place of the hexadecimal digest in a bound token
(after the three characters of `K10`). -/
def digestSegment (tok : String) : String := String.mk ((tok.data.drop 3).take 64)

/-! ## `strings.TrimSpace` -/

/-- The predicate `unicode.IsSpace`: the Latin-1 white space characters and the characters of the
`White_Space` range table above Latin-1. -/
def IsSpace (r : Char) : Bool :=
  let c := r.toNat
  if c ≤ 0xFF then
    c = 0x09 || c = 0x0A || c = 0x0B || c = 0x0C || c = 0x0D || c = 0x20 || c = 0x85 || c = 0xA0
  else
    c = 0x1680 || (0x2000 ≤ c && c ≤ 0x200a) || c = 0x2028 || c = 0x2029 || c = 0x202f ||
      c = 0x205f || c = 0x3000

/-- The function `strings.TrimLeftFunc` on the characters of a string. -/
def TrimLeftFunc (s : List Char) (f : Char → Bool) : List Char := s.dropWhile f

/-- The function `strings.TrimRightFunc` on the characters of a string. -/
def TrimRightFunc (s : List Char) (f : Char → Bool) : List Char := (s.reverse.dropWhile f).reverse

/-- The function `strings.TrimSpace`, that is `TrimFunc(s, unicode.IsSpace)`: leading and trailing
white space removed. -/
def TrimSpace (s : String) : String :=
  String.mk (TrimRightFunc (TrimLeftFunc s.data IsSpace) IsSpace)

/-! ## Data model -/

/-- A Go `error`, identified with its message. -/
abbrev Error := String

/-- The function `errors.Wrap` on a non-nil error. -/
def wrap (err : Error) (message : String) : Error := message ++ ": " ++ err

/-- A regular file: its text and its permission bits. -/
structure File where
  content : String
  mode : Nat
deriving DecidableEq, Repr

/-- The regular files of the file system, by path.  Paths are compared as written, directories
are not tracked and access permissions are recorded but not enforced. -/
abbrev FS := String → Option File

/-- The observable actions of the bootstrap, in program order. -/
inductive Event where
  | infof (format : String) (args : List String)
  | errorf (format : String) (args : List String)
  | error (args : List String)
  | sleep (nanoseconds : Nat)
  | mkdirAll (path : String) (perm : Nat)
  | chdir (path : String)
  | controlServer
  | normanBuild
  | caCert
  | chooseHostInterface
  | writeFile (path : String) (data : String) (perm : Nat)
  | agentAccessInfoToKubeConfig (dest : String) (url : String) (token : String)
  | chmod (path : String) (mode : Nat)
deriving DecidableEq, Repr

/-- The state threaded through the bootstrap. -/
structure State where
  fs : FS
  cwd : String
  trace : List Event

/-- Appends an event to the trace. -/
def State.emit (s : State) (e : Event) : State := { s with trace := s.trace ++ [e] }

/-- A `context.Context`, as far as this package could observe it: whether it is cancelled at the
`k`-th iteration boundary of the poll loop. -/
structure Context where
  cancelled : Nat → Bool

/-- The fields of `config.ControlRuntime` read by this package. -/
structure ControlRuntime where
  NodeToken : String
  ClientToken : String
  KubeConfigSystem : String
deriving DecidableEq, Repr

/-- The fields of `config.Control` read by this package. -/
structure Control where
  DataDir : String
  KubeConfigOutput : String
  KubeConfigMode : String
  Skips : List String
  Runtime : ControlRuntime
deriving DecidableEq, Repr

/-- The field of `dynamiclistener.UserConfig` read by this package. -/
structure UserConfig where
  HTTPSPort : Int
deriving DecidableEq, Repr

/-- The server configuration `Config`. -/
structure Config where
  ControlConfig : Control
  TLSConfig : UserConfig
deriving DecidableEq, Repr

/-- The collaborators outside this package, each by its result.  A Go `(T, error)` result is a
pair whose first component is what the callee returned next to the error. -/
structure Env where
  /-- The result of `os.Getuid`. -/
  getuid : Nat
  /-- The function `resolvehome.Resolve`. -/
  resolve : String → String × Option Error
  /-- The function `filepath.Join` on two elements. -/
  join : String → String → String
  /-- The function `filepath.Base`. -/
  base : String → String
  /-- The program name `os.Args[0]`. -/
  arg0 : String
  /-- The error of `os.MkdirAll`. -/
  mkdirAll : String → Nat → Option Error
  /-- The error of `os.Chdir`. -/
  chdir : String → Option Error
  /-- The call `control.Server(ctx, &config)`: the configuration it leaves behind the pointer and
  its error. -/
  controlServer : Context → Control → Control × Option Error
  /-- The error of `normanConfig.Build(ctx, nil)`; without error `GlobalSetup` has assigned
  `tlsServer`. -/
  normanBuild : Context → Control → Option Error
  /-- The result of the `k`-th call of `tlsServer.CACert()` made by the poll loop. -/
  caCert : Nat → String × Option Error
  /-- The result of `net.ChooseHostInterface`, the address already rendered by `IP.String`. -/
  chooseHostInterface : String × Option Error
  /-- The call `clientaccess.AgentAccessInfoToKubeConfig(dest, url, token)` with its effect on
  the files. -/
  agentAccessInfoToKubeConfig : FS → String → String → String → FS × Option Error
  /-- The call `strconv.ParseInt(s, 8, 0)`. -/
  parseInt : String → Int × Option Error
  /-- The error, if any, of opening a path for writing. -/
  openErr : String → Option Error
  /-- The fault, if any, of writing to an opened path: how many characters reach the file and
  the error reported. -/
  writeFault : String → Option (Nat × Error)
  /-- The error, if any, of `os.Chmod` on a path. -/
  chmodErr : String → Option Error
  /-- The file mode creation mask of the process. -/
  umask : Nat

/-! ## `io/ioutil` and `os` -/

/-- The function `ioutil.WriteFile`: the file is opened with `O_WRONLY|O_CREATE|O_TRUNC` (an
existing file keeps its mode, a new one gets `perm` less the umask), then written. -/
def WriteFile (env : Env) (filename : String) (data : String) (perm : Nat) (s : State) :
    Option Error × State :=
  let s := s.emit (.writeFile filename data perm)
  match env.openErr filename with
  | some err => (some err, s)
  | none =>
    let mode := match s.fs filename with
      | some f => f.mode
      | none => perm ^^^ (perm &&& env.umask)
    match env.writeFault filename with
    | some (n, err) =>
      (some err,
        { s with fs := fun p => if p = filename then
                    some ⟨String.mk (data.data.take n), mode⟩ else s.fs p })
    | none => (none, { s with fs := fun p => if p = filename then some ⟨data, mode⟩ else s.fs p })

/-- The function `ioutil.ReadFile`. -/
def ReadFile (filename : String) (s : State) : String × Option Error :=
  match s.fs filename with
  | some f => (f.content, none)
  | none => ("", some ("open " ++ filename ++ ": no such file or directory"))

/-- The permission and special bits passed to the system call by `os.Chmod` (`syscallMode`). -/
def syscallMode (i : Nat) : Nat :=
  (i &&& 0o777) ||| (if i &&& 2 ^ 23 ≠ 0 then 0o4000 else 0)
    ||| (if i &&& 2 ^ 22 ≠ 0 then 0o2000 else 0) ||| (if i &&& 2 ^ 20 ≠ 0 then 0o1000 else 0)

/-- The function `os.Chmod`. -/
def Chmod (env : Env) (name : String) (mode : Nat) (s : State) : Option Error × State :=
  let s := s.emit (.chmod name mode)
  match env.chmodErr name with
  | some err => (some err, s)
  | none =>
    match s.fs name with
    | none => (some ("chmod " ++ name ++ ": no such file or directory"), s)
    | some f =>
      (none, { s with fs := fun p => if p = name then some ⟨f.content, syscallMode mode⟩ else s.fs p })

/-! ## The token store -/

/-- The function `writeToken` of `server.go`. -/
def writeToken (env : Env) (token file certs : String) (s : State) : Option Error × State :=
  if len token = 0 then
    (none, s)
  else
    let token := FormatToken token certs
    WriteFile env file (token ++ "\n") 0o600 s

/-- The function `readTokenFile` of `server.go`. -/
def readTokenFile (file : String) (s : State) : String × Option Error :=
  match ReadFile file s with
  | (_, some err) => ("", some err)
  | (content, none) => (TrimSpace content, none)

/-! ## The bootstrap sequence -/

/-- The function `resolveDataDir` of `server.go`. -/
def resolveDataDir (env : Env) (dataDir : String) : String × Option Error :=
  let dataDir :=
    if dataDir = "" then
      if env.getuid = 0 then "/var/lib/rancher/k3s" else "$\x7bHOME\x7d/.rancher/k3s"
    else dataDir
  let dataDir := env.join dataDir "server"
  env.resolve dataDir

/-- The function `setupDataDirAndChdir` of `server.go`; the configuration behind the pointer is
returned next to the error. -/
def setupDataDirAndChdir (env : Env) (config : Control) (s : State) :
    Option Error × Control × State :=
  let (dir, err) := resolveDataDir env config.DataDir
  let config := { config with DataDir := dir }
  match err with
  | some err => (some err, config, s)
  | none =>
    let dataDir := config.DataDir
    let s := s.emit (.mkdirAll dataDir 0o700)
    match env.mkdirAll dataDir 0o700 with
    | some err => (some (wrap err ("can not mkdir " ++ dataDir)), config, s)
    | none =>
      let s := s.emit (.chdir dataDir)
      match env.chdir dataDir with
      | some err => (some (wrap err ("can not chdir " ++ dataDir)), config, s)
      | none => (none, config, { s with cwd := dataDir })

/-- The loop `for { certs, err := tlsServer.CACert(); ... }` of `startNorman`, run for at most
`fuel` iterations; `i` counts the calls of `CACert` made so far.  The first component is `none`
when the loop is still running after `fuel` iterations. -/
def pollLoop (env : Env) : Nat → Nat → State → Option String × State
  | 0, _, s => (none, s)
  | fuel + 1, i, s =>
    let s := s.emit .caCert
    match env.caCert i with
    | (_, some _) =>
      let s := s.emit (.infof "waiting to generate CA certs" [])
      let s := s.emit (.sleep 1000000000)
      pollLoop env fuel (i + 1) s
    | (certs, none) => (some certs, s)

/-- The function `startNorman` of `server.go`: the norman configuration is built (which starts
the TLS front-end through `GlobalSetup` and registers the manifest controllers), then the poll
loop runs.  Installing the request handler in `tlsConfig.Handler` leaves the modelled state as it
is.  The first component is `none` when the function has not returned within `fuel` polls. -/
def startNorman (env : Env) (ctx : Context) (_tlsConfig : UserConfig) (config : Control)
    (fuel : Nat) (s : State) : Option (String × Option Error) × State :=
  let s := s.emit .normanBuild
  match env.normanBuild ctx config with
  | some err => (some ("", some err), s)
  | none =>
    match pollLoop env fuel 0 s with
    | (none, s) => (none, s)
    | (some certs, s) => (some (certs, none), s)

/-- The function `HomeKubeConfig` of `server.go`. -/
def HomeKubeConfig (env : Env) : String × Option Error :=
  env.resolve "$\x7bHOME\x7d/.kube/k3s.yaml"

/-- The function `printToken` of `server.go`. -/
def printToken (env : Env) (httpsPort : Int) (advertiseIP pfx cmd : String) (s : State) : State :=
  let ip := advertiseIP
  let (ip, s) :=
    if ip = "" then
      let s := s.emit .chooseHostInterface
      match env.chooseHostInterface with
      | (hostIP, some err) => (hostIP, s.emit (.error [err]))
      | (hostIP, none) => (hostIP, s)
    else (ip, s)
  s.emit (.infof "%s k3s %s -s https://%s:%d -t $\x7bNODE_TOKEN\x7d"
    [pfx, cmd, ip, toString httpsPort])

/-- The function `printTokens` of `server.go`. -/
def printTokens (env : Env) (certs advertiseIP : String) (tlsConfig : UserConfig)
    (config : Control) (s : State) : State :=
  let nodeFile := ""
  let advertiseIP := if advertiseIP = "" then "localhost" else advertiseIP
  let (nodeFile, s) :=
    if len config.Runtime.NodeToken > 0 then
      let p := env.join config.DataDir "node-token"
      match writeToken env config.Runtime.NodeToken p certs s with
      | (none, s) => (p, s.emit (.infof "Node token is available at %s" [p]))
      | (some _, s) => (nodeFile, s)
    else (nodeFile, s)
  if len nodeFile > 0 then
    printToken env tlsConfig.HTTPSPort advertiseIP "To join node to cluster:" "agent" s
  else s

/-- The function `writeKubeConfig` of `server.go`. -/
def writeKubeConfig (env : Env) (certs : String) (tlsConfig : UserConfig) (config : Control)
    (s : State) : State :=
  let clientToken := FormatToken config.Runtime.ClientToken certs
  let url := "https://localhost:" ++ toString tlsConfig.HTTPSPort
  let (kubeConfig, dflt) :=
    match HomeKubeConfig env with
    | (_, some _) => (env.join config.DataDir "kubeconfig-k3s.yaml", false)
    | (kubeConfig, none) => (kubeConfig, true)
  let kubeConfig := if config.KubeConfigOutput ≠ "" then config.KubeConfigOutput else kubeConfig
  let s := s.emit (.agentAccessInfoToKubeConfig kubeConfig url clientToken)
  let s :=
    match env.agentAccessInfoToKubeConfig s.fs kubeConfig url clientToken with
    | (fs, some err) => { s with fs := fs }.emit (.errorf "Failed to generate kubeconfig: %v" [err])
    | (fs, none) => { s with fs := fs }
  let s :=
    if config.KubeConfigMode ≠ "" then
      match env.parseInt config.KubeConfigMode with
      | (mode, none) => (Chmod env kubeConfig (mode % 2 ^ 32).toNat s).2
      | (mode, some err) =>
        s.emit (.errorf "failed to set %s to mode %s: %v" [kubeConfig, toString mode, err])
    else s
  let s := s.emit (.infof "Wrote kubeconfig %s" [kubeConfig])
  if dflt then s.emit (.infof "Run: %s kubectl" [env.base env.arg0]) else s

/-- The function `StartServer` of `server.go`.  The first component is `none` when the call has
not returned within `fuel` polls of the root-of-trust loop, otherwise the returned pair. -/
def StartServer (env : Env) (ctx : Context) (config : Config) (fuel : Nat) (s : State) :
    Option (String × Option Error) × State :=
  match setupDataDirAndChdir env config.ControlConfig s with
  | (some err, _, s) => (some ("", some err), s)
  | (none, control, s) =>
    let s := s.emit .controlServer
    match env.controlServer ctx control with
    | (_, some err) => (some ("", some (wrap err "starting kubernetes")), s)
    | (control, none) =>
      match startNorman env ctx config.TLSConfig control fuel s with
      | (none, s) => (none, s)
      | (some (_, some err), s) => (some ("", some (wrap err "starting tls server")), s)
      | (some (certs, none), s) =>
        let s := s.emit .chooseHostInterface
        let ip :=
          match env.chooseHostInterface with
          | (_, some _) => "127.0.0.1"
          | (ip, none) => ip
        let s := printTokens env certs ip config.TLSConfig control s
        let s := writeKubeConfig env certs config.TLSConfig control s
        (some (certs, none), s)

/-! ## Sample environments and inputs -/

/-- A sample environment: every collaborator succeeds, and the root of trust becomes available
at the fourth poll. -/
def sampleEnv : Env where
  getuid := 0
  resolve := fun p => (p, none)
  join := fun a b => a ++ "/" ++ b
  base := fun p => p
  arg0 := "k3s"
  mkdirAll := fun _ _ => none
  chdir := fun _ => none
  controlServer := fun _ c => (c, none)
  normanBuild := fun _ _ => none
  caCert := fun k => if k < 3 then ("", some "certs not generated") else ("CA", none)
  chooseHostInterface := ("10.0.0.1", none)
  agentAccessInfoToKubeConfig := fun fs dest _ token =>
    (fun p => if p = dest then some ⟨token, 0o600⟩ else fs p, none)
  parseInt := fun _ => (0o644, none)
  openErr := fun _ => none
  writeFault := fun _ => none
  chmodErr := fun _ => none
  umask := 0o022

/-- A sample environment in which every step after the poll loop fails: no file can be opened for
writing, the client configuration cannot be generated, the file mode does not parse and no host
interface is found. -/
def failingEnv : Env :=
  { sampleEnv with
    openErr := fun _ => some "read-only file system"
    agentAccessInfoToKubeConfig := fun fs _ _ _ => (fs, some "connection refused")
    parseInt := fun _ => (0, some "value out of range")
    chmodErr := fun _ => some "operation not permitted"
    chooseHostInterface := ("<nil>", some "no default routes found") }

/-- A sample environment whose control plane fails to start. -/
def brokenControlEnv : Env :=
  { sampleEnv with controlServer := fun _ c => (c, some "etcd unavailable") }

/-- A sample environment whose front-end never produces its root of trust. -/
def stuckEnv : Env :=
  { sampleEnv with caCert := fun _ => ("", some "certs not generated") }

/-- A sample configuration with a node secret, a client secret and a requested file mode. -/
def sampleConfig : Config where
  ControlConfig :=
    { DataDir := "/data"
      KubeConfigOutput := "/out/k3s.yaml"
      KubeConfigMode := "644"
      Skips := []
      Runtime := { NodeToken := "node-secret", ClientToken := "client-secret",
                   KubeConfigSystem := "/data/server/cred/kubeconfig-system.yaml" } }
  TLSConfig := { HTTPSPort := 6443 }

/-- The empty file system, before anything was logged. -/
def emptyState : State where
  fs := fun _ => none
  cwd := "/"
  trace := []

/-- A context that is cancelled from the first iteration boundary on. -/
def cancelledContext : Context where
  cancelled := fun _ => true

/-- A context that is never cancelled. -/
def liveContext : Context where
  cancelled := fun _ => false

/-- The events of `n` failed polls: each a call of `CACert`, the log line and a one-second
sleep. -/
def failedPolls : Nat → List Event
  | 0 => []
  | n + 1 =>
    [.caCert, .infof "waiting to generate CA certs" [], .sleep 1000000000] ++ failedPolls n

/-- Whether an event is a call of `CACert`. -/
def Event.isPoll : Event → Bool
  | .caCert => true
  | _ => false

/-- Whether an event is a sleep. -/
def Event.isSleep : Event → Bool
  | .sleep _ => true
  | _ => false

/-! ## Strings and digests: auxiliary facts -/

theorem utf8ByteSize_go_eq_zero (l : List Char) : String.utf8ByteSize.go l = 0 ↔ l = [] := by
  cases l with
  | nil => simp [String.utf8ByteSize.go]
  | cons c cs =>
    have := Char.utf8Size_pos c
    simp [String.utf8ByteSize.go]
    omega

theorem len_eq_zero_iff (s : String) : len s = 0 ↔ s = "" := by
  cases s with
  | mk l =>
    show String.utf8ByteSize.go l = 0 ↔ _
    rw [utf8ByteSize_go_eq_zero]
    constructor
    · intro h; subst h; rfl
    · intro h; exact congrArg String.data h

theorem len_pos_iff (s : String) : len s > 0 ↔ s ≠ "" := by
  rw [gt_iff_lt, Nat.pos_iff_ne_zero, Ne, len_eq_zero_iff]

theorem FormatToken_empty (certs : String) : FormatToken "" certs = "" := by
  simp [FormatToken, len_eq_zero_iff]

theorem FormatToken_unbound (token : String) (ht : token ≠ "") :
    FormatToken token "" = "K10" ++ token := by
  have h0 : ¬ (0 < len "") := by decide
  simp [FormatToken, len_eq_zero_iff, ht, h0]

theorem FormatToken_bound (token certs : String) (ht : token ≠ "") (hc : certs ≠ "") :
    FormatToken token certs = "K10" ++ hexDigest certs ++ "::" ++ token := by
  simp [FormatToken, len_eq_zero_iff, len_pos_iff, ht, hc]

theorem hexEncode_length (l : List Nat) : (hexEncode l).length = 2 * l.length := by
  induction l with
  | nil => rfl
  | cons v vs ih => simp [hexEncode, ih]; omega

theorem Sum256_length (data : List Nat) : (Sha256.Sum256 data).length = 32 := by
  simp [Sha256.Sum256, Sha256.putUint32]

theorem Sum256_lt (data : List Nat) : ∀ b ∈ Sha256.Sum256 data, b < 256 := by
  intro b hb
  simp only [Sha256.Sum256, Sha256.putUint32, List.mem_append, List.mem_cons,
    List.mem_singleton, List.not_mem_nil, or_false] at hb
  rcases hb with ((((((h | h) | h) | h) | h) | h) | h) | h <;>
    rcases h with h | h | h | h <;> subst h <;> exact Nat.mod_lt _ (by decide)

theorem hexDigest_length (certs : String) : (hexDigest certs).length = 64 := by
  show (hexEncode _).length = 64
  rw [hexEncode_length, Sum256_length]

theorem hextable_getD_mem (i : Nat) : hextable.getD i '0' ∈ hextable := by
  by_cases h : i < 16
  · interval_cases i <;> decide
  · have : hextable.length ≤ i := by
      have : hextable.length = 16 := by decide
      omega
    rw [List.getD_eq_default _ _ this]
    decide

theorem hexEncode_mem (l : List Nat) : ∀ c ∈ hexEncode l, c ∈ hextable := by
  induction l with
  | nil => intro c hc; cases hc
  | cons v vs ih =>
    intro c hc
    simp only [hexEncode, List.mem_cons] at hc
    rcases hc with h | h | h
    · rw [h]; exact hextable_getD_mem _
    · rw [h]; exact hextable_getD_mem _
    · exact ih c h

theorem hextable_getD_inj (i j : Nat) (hi : i < 16) (hj : j < 16)
    (h : hextable.getD i '0' = hextable.getD j '0') : i = j := by
  interval_cases i <;> interval_cases j <;> first | rfl | (exact absurd h (by decide))

theorem hexByte_inj (v w : Nat) (hv : v < 256) (hw : w < 256)
    (h1 : hextable.getD (v >>> 4) '0' = hextable.getD (w >>> 4) '0')
    (h2 : hextable.getD (v &&& 0x0f) '0' = hextable.getD (w &&& 0x0f) '0') : v = w := by
  have e1 : ∀ x : Nat, x >>> 4 = x / 16 := fun x => by rw [Nat.shiftRight_eq_div_pow]
  have e2 : ∀ x : Nat, x &&& 0x0f = x % 16 := fun x =>
    Nat.and_pow_two_sub_one_eq_mod x 4
  rw [e1, e1] at h1
  rw [e2, e2] at h2
  have a := hextable_getD_inj _ _ (by omega) (by omega) h1
  have b := hextable_getD_inj _ _ (Nat.mod_lt _ (by decide)) (Nat.mod_lt _ (by decide)) h2
  omega

theorem hexEncode_inj : ∀ (a b : List Nat), (∀ x ∈ a, x < 256) → (∀ x ∈ b, x < 256) →
    hexEncode a = hexEncode b → a = b
  | [], [], _, _, _ => rfl
  | [], _ :: _, _, _, h => by simp [hexEncode] at h
  | _ :: _, [], _, _, h => by simp [hexEncode] at h
  | v :: vs, w :: ws, ha, hb, h => by
    simp only [hexEncode, List.cons.injEq] at h
    obtain ⟨h1, h2, h3⟩ := h
    have hvw := hexByte_inj v w (ha v (List.mem_cons_self _ _)) (hb w (List.mem_cons_self _ _)) h1 h2
    have := hexEncode_inj vs ws (fun x hx => ha x (List.mem_cons_of_mem _ hx))
      (fun x hx => hb x (List.mem_cons_of_mem _ hx)) h3
    rw [hvw, this]

theorem hexDigest_eq_iff (r1 r2 : String) :
    hexDigest r1 = hexDigest r2 ↔ Sha256.Sum256 (bytes r1) = Sha256.Sum256 (bytes r2) := by
  constructor
  · intro h
    exact hexEncode_inj _ _ (Sum256_lt _) (Sum256_lt _) (congrArg String.data h)
  · intro h
    simp [hexDigest, h]

theorem digestSegment_bound (token certs : String) :
    digestSegment ("K10" ++ hexDigest certs ++ "::" ++ token) = hexDigest certs := by
  have hl : (hexDigest certs).data.length = 64 := hexDigest_length certs
  apply String.ext
  show List.take 64 (List.drop 3 ("K10" ++ hexDigest certs ++ "::" ++ token).data) = _
  simp only [String.data_append]
  simp only [List.append_assoc, List.cons_append, List.nil_append, List.drop_succ_cons,
    List.drop_zero]
  rw [List.take_append_of_le_length (by omega), List.take_of_length_le (by omega)]

/-- The digest of the empty message (FIPS 180-4 test vector). -/
theorem Sum256_vector_empty :
    hexDigest "" = "e3b0c44298fc1c149afbf4c8996fb92427ae41e4649b934ca495991b7852b855" := by
  decide!

/-- The digest of `abc` (FIPS 180-4 test vector, one block). -/
theorem Sum256_vector_abc :
    hexDigest "abc" = "ba7816bf8f01cfea414140de5dae2223b00361a396177a9cb410ff61f20015ad" := by
  decide!

/-- The digest of the 56-byte test vector of FIPS 180-4 (two blocks). -/
theorem Sum256_vector_two_blocks :
    hexDigest "abcdbcdecdefdefgefghfghighijhijkijkljklmklmnlmnomnopnopq" =
      "248d6a61d20638b8e5c026930c3e6039a33ce45964ff2167f6ecedd419db06c1" := by
  decide!

theorem hexDigest_hello :
    hexDigest "hello" = "2cf24dba5fb0a30e26e83b2ac5b9e29e1b161e5c1fa7425e73043362938b9824" := by
  decide!

theorem hexDigest_hellO :
    hexDigest "hellO" = "04a6f55face2f46be8c23f627d539827615851e10751b63ec59db6d2c706b770" := by
  decide!

/-! ## The credential binder -/

/-- C1: for a non-empty token and non-empty certs, `FormatToken token certs` is `K10`, the
64-character lowercase hexadecimal text of the 32-byte SHA-256 digest of certs, `::` and the
token; for token `abc` and certs `hello` this is `K10` ++ hex(sha256(hello)) ++ `::abc`, and its
hexadecimal segment differs from the one obtained for certs `hellO`. -/
theorem FormatToken_bound_spec :
    (∀ token certs : String, token ≠ "" → certs ≠ "" →
      FormatToken token certs = "K10" ++ hexDigest certs ++ "::" ++ token ∧
      (Sha256.Sum256 (bytes certs)).length = 32 ∧
      (hexDigest certs).length = 64 ∧
      (∀ c ∈ (hexDigest certs).data, c ∈ "0123456789abcdef".toList) ∧
      digestSegment (FormatToken token certs) = hexDigest certs) ∧
    FormatToken "abc" "hello" = "K10" ++ hexDigest "hello" ++ "::abc" ∧
    FormatToken "abc" "hello" =
      "K102cf24dba5fb0a30e26e83b2ac5b9e29e1b161e5c1fa7425e73043362938b9824::abc" ∧
    digestSegment (FormatToken "abc" "hello") ≠ digestSegment (FormatToken "abc" "hellO") := by
  refine ⟨?_, ?_, ?_, ?_⟩
  · intro token certs ht hc
    refine ⟨FormatToken_bound token certs ht hc, Sum256_length _, hexDigest_length _, ?_, ?_⟩
    · exact hexEncode_mem _
    · rw [FormatToken_bound token certs ht hc, digestSegment_bound]
  · exact FormatToken_bound "abc" "hello" (by decide) (by decide)
  · rw [FormatToken_bound "abc" "hello" (by decide) (by decide), hexDigest_hello]
    decide
  · rw [FormatToken_bound "abc" "hello" (by decide) (by decide),
      FormatToken_bound "abc" "hellO" (by decide) (by decide), digestSegment_bound,
      digestSegment_bound, hexDigest_hello, hexDigest_hellO]
    decide

/-- C1, at token `abc` and certs `hello`. -/
theorem FormatToken_bound_spec_witness :
    "abc" ≠ "" ∧ "hello" ≠ "" ∧
      FormatToken "abc" "hello" = "K10" ++ hexDigest "hello" ++ "::" ++ "abc" :=
  ⟨by decide, by decide, (FormatToken_bound_spec.1 "abc" "hello" (by decide) (by decide)).1⟩

/-- C2: for every certs, empty or not, `FormatToken "" certs` is the empty string. -/
theorem FormatToken_empty_token (certs : String) : FormatToken "" certs = "" :=
  FormatToken_empty certs

/-- C3: for a non-empty token, `FormatToken token ""` is exactly `K10` followed by the token: it
starts with `K10`, what follows these three characters is the token itself, so there is neither a
digest segment nor a `::` separator between them. -/
theorem FormatToken_unbound_spec (token : String) (ht : token ≠ "") :
    FormatToken token "" = "K10" ++ token ∧
    (FormatToken token "").data.take 3 = "K10".data ∧
    (FormatToken token "").data.drop 3 = token.data ∧
    (FormatToken token "").length = 3 + token.length := by
  rw [FormatToken_unbound token ht]
  refine ⟨rfl, ?_, ?_, ?_⟩
  · simp [String.data_append]
  · simp [String.data_append]
  · have h3 : ("K10" : String).length = 3 := by decide
    rw [String.length_append, h3]

/-- C3, at token `abc`. -/
theorem FormatToken_unbound_spec_witness :
    "abc" ≠ "" ∧ FormatToken "abc" "" = "K10abc" :=
  ⟨by decide, (FormatToken_unbound_spec "abc" (by decide)).1⟩

/-- C4: for a non-empty token and non-empty roots of trust r1 and r2, `FormatToken` gives equal
results on equal inputs, the bound tokens for r1 and r2 are equal exactly when the SHA-256
digests of r1 and r2 are equal, and roots of trust with different digests give tokens with
different digest segments. -/
theorem FormatToken_depends_on_digest (token r1 r2 : String) (ht : token ≠ "")
    (h1 : r1 ≠ "") (h2 : r2 ≠ "") :
    (∀ token' r1' : String, token' = token → r1' = r1 →
      FormatToken token' r1' = FormatToken token r1) ∧
    (FormatToken token r1 = FormatToken token r2 ↔
      Sha256.Sum256 (bytes r1) = Sha256.Sum256 (bytes r2)) ∧
    (Sha256.Sum256 (bytes r1) ≠ Sha256.Sum256 (bytes r2) →
      digestSegment (FormatToken token r1) ≠ digestSegment (FormatToken token r2)) := by
  have key : ∀ r : String, r ≠ "" → digestSegment (FormatToken token r) = hexDigest r := by
    intro r hr
    rw [FormatToken_bound token r ht hr, digestSegment_bound]
  refine ⟨?_, ?_, ?_⟩
  · intro token' r1' e1 e2
    rw [e1, e2]
  · constructor
    · intro h
      have := congrArg digestSegment h
      rw [key r1 h1, key r2 h2] at this
      exact (hexDigest_eq_iff r1 r2).1 this
    · intro h
      rw [FormatToken_bound token r1 ht h1, FormatToken_bound token r2 ht h2,
        (hexDigest_eq_iff r1 r2).2 h]
  · intro h hseg
    rw [key r1 h1, key r2 h2] at hseg
    exact h ((hexDigest_eq_iff r1 r2).1 hseg)

/-- C4, at token `abc` and the roots of trust `hello` and `hellO`. -/
theorem FormatToken_depends_on_digest_witness :
    "abc" ≠ "" ∧ "hello" ≠ "" ∧ "hellO" ≠ "" ∧
      (FormatToken "abc" "hello" = FormatToken "abc" "hellO" ↔
        Sha256.Sum256 (bytes "hello") = Sha256.Sum256 (bytes "hellO")) :=
  ⟨by decide, by decide, by decide,
    (FormatToken_depends_on_digest "abc" "hello" "hellO" (by decide) (by decide) (by decide)).2.1⟩

/-! ## The token store -/

theorem FormatToken_data (token certs : String) (ht : token ≠ "") :
    ∃ p : List Char, (FormatToken token certs).data = 'K' :: (p ++ token.data) := by
  by_cases hc : certs = ""
  · subst hc
    rw [FormatToken_unbound token ht]
    exact ⟨['1', '0'], by simp [String.data_append]⟩
  · rw [FormatToken_bound token certs ht hc]
    exact ⟨'1' :: '0' :: ((hexDigest certs).data ++ [':', ':']), by simp [String.data_append]⟩

theorem TrimRightFunc_concat_keep (l : List Char) (c : Char) (f : Char → Bool)
    (hc : f c = false) : TrimRightFunc (l ++ [c]) f = l ++ [c] := by
  simp [TrimRightFunc, List.dropWhile_cons, hc]

theorem TrimRightFunc_concat_drop (l : List Char) (c : Char) (f : Char → Bool)
    (hc : f c = true) : TrimRightFunc (l ++ [c]) f = TrimRightFunc l f := by
  simp [TrimRightFunc, List.dropWhile_cons, hc]

theorem TrimSpace_line (p t : List Char) (c : Char) (hc : IsSpace c = false) :
    TrimSpace (String.mk ('K' :: (p ++ (t ++ [c]))) ++ "\n") = String.mk ('K' :: (p ++ (t ++ [c]))) := by
  have hK : IsSpace 'K' = false := by decide
  have hn : IsSpace '\n' = true := by decide
  have e : (String.mk ('K' :: (p ++ (t ++ [c]))) ++ "\n").data
      = ('K' :: (p ++ t) ++ [c]) ++ ['\n'] := by
    simp [String.data_append]
  unfold TrimSpace
  rw [e]
  congr 1
  have hl : TrimLeftFunc (('K' :: (p ++ t) ++ [c]) ++ ['\n']) IsSpace
      = ('K' :: (p ++ t) ++ [c]) ++ ['\n'] := by
    simp [TrimLeftFunc, List.dropWhile_cons, hK]
  rw [hl, TrimRightFunc_concat_drop _ _ _ hn, TrimRightFunc_concat_keep _ _ _ hc]
  simp

theorem TrimSpace_FormatToken_line (token certs : String) (ht : token ≠ "")
    (hsp : ∀ c, token.data.getLast? = some c → IsSpace c = false) :
    TrimSpace (FormatToken token certs ++ "\n") = FormatToken token certs := by
  obtain ⟨p, hp⟩ := FormatToken_data token certs ht
  have hne : token.data ≠ [] := fun h => ht (String.ext h)
  obtain ⟨t, c, htc⟩ : ∃ t c, token.data = t ++ [c] :=
    ⟨token.data.dropLast, token.data.getLast hne, (List.dropLast_append_getLast hne).symm⟩
  have hc : IsSpace c = false := hsp c (by rw [htc]; simp)
  have hF : FormatToken token certs = String.mk ('K' :: (p ++ (t ++ [c]))) := by
    apply String.ext
    rw [hp, htc]
  rw [hF]
  exact TrimSpace_line p t c hc

theorem WriteFile_ok (env : Env) (filename data : String) (perm : Nat) (s s' : State)
    (h : WriteFile env filename data perm s = (none, s')) :
    ∃ mode, s'.fs filename = some ⟨data, mode⟩ := by
  unfold WriteFile at h
  simp only at h
  cases ho : env.openErr filename with
  | some err => rw [ho] at h; simp at h
  | none =>
    rw [ho] at h
    cases hw : env.writeFault filename with
    | some w => rw [hw] at h; simp at h
    | none =>
      rw [hw] at h
      simp only [Prod.mk.injEq, true_and] at h
      subst h
      exact ⟨_, if_pos rfl⟩

/-- C6: for every path, certs and state, `writeToken` with the empty token returns no error and
leaves the state unchanged: the files are the same and no write is attempted. -/
theorem writeToken_empty_token (env : Env) (file certs : String) (s : State) :
    writeToken env "" file certs s = (none, s) := by
  simp [writeToken, len_eq_zero_iff]

/-- C5 (as amended): for a non-empty token whose last character is not white space, whatever the
certs, once `writeToken` has persisted the token at a path without error, `readTokenFile` on that
path succeeds and returns exactly the bound token `FormatToken token certs`. -/
theorem readTokenFile_writeToken (env : Env) (token file certs : String) (s s' : State)
    (ht : token ≠ "")
    (hsp : ∀ c, token.data.getLast? = some c → IsSpace c = false)
    (hw : writeToken env token file certs s = (none, s')) :
    readTokenFile file s' = (FormatToken token certs, none) := by
  have hlen : ¬ len token = 0 := fun h => ht ((len_eq_zero_iff token).1 h)
  simp only [writeToken, hlen, if_false] at hw
  obtain ⟨mode, hm⟩ := WriteFile_ok env file _ _ s s' hw
  simp only [readTokenFile, ReadFile, hm]
  rw [TrimSpace_FormatToken_line token certs ht hsp]

/-- C5 (as amended), at token `abc` and certs `hello` on the empty file system. -/
theorem readTokenFile_writeToken_witness :
    "abc" ≠ "" ∧
    (writeToken sampleEnv "abc" "/data/node-token" "hello" emptyState).1 = none ∧
    readTokenFile "/data/node-token"
        (writeToken sampleEnv "abc" "/data/node-token" "hello" emptyState).2
      = (FormatToken "abc" "hello", none) :=
  ⟨by decide, rfl,
    readTokenFile_writeToken sampleEnv "abc" "/data/node-token" "hello" emptyState _
      (by decide) (by decide) rfl⟩

/-- C5 fails as stated: the token `abc ` (a trailing blank, no newline) is persisted without
error as the line `K10abc `, and `readTokenFile` returns `K10abc`, not the bound token. -/
theorem trailing_blank_is_trimmed :
    '\n' ∉ "abc ".data ∧
    (writeToken sampleEnv "abc " "/data/node-token" "" emptyState).1 = none ∧
    (writeToken sampleEnv "abc " "/data/node-token" "" emptyState).2.fs "/data/node-token"
      = some ⟨"K10abc \n", 0o600⟩ ∧
    FormatToken "abc " "" = "K10abc " ∧
    readTokenFile "/data/node-token"
        (writeToken sampleEnv "abc " "/data/node-token" "" emptyState).2 = ("K10abc", none) ∧
    readTokenFile "/data/node-token"
        (writeToken sampleEnv "abc " "/data/node-token" "" emptyState).2
      ≠ (FormatToken "abc " "", none) := by
  refine ⟨by decide, by decide, by decide, by decide, by decide, by decide⟩

/-! ## The bootstrap sequence: auxiliary facts -/

theorem setupDataDirAndChdir_ok (env : Env) (config c1 : Control) (s s1 : State)
    (h : setupDataDirAndChdir env config s = (none, c1, s1)) :
    s1.fs = s.fs ∧ s1.cwd = c1.DataDir ∧
      s1.trace = s.trace ++ [.mkdirAll c1.DataDir 0o700, .chdir c1.DataDir] := by
  unfold setupDataDirAndChdir at h
  rcases hr : resolveDataDir env config.DataDir with ⟨dir, _ | e⟩
  · rw [hr] at h
    simp only at h
    cases hm : env.mkdirAll dir 0o700 with
    | some e => rw [hm] at h; simp at h
    | none =>
      rw [hm] at h
      simp only at h
      cases hc : env.chdir dir with
      | some e => rw [hc] at h; simp at h
      | none =>
        rw [hc] at h
        simp only [Prod.mk.injEq, true_and] at h
        obtain ⟨h1, h2⟩ := h
        subst h1 h2
        simp [State.emit]
  · rw [hr] at h
    simp at h

theorem pollLoop_failing (env : Env) (hfail : ∀ k, (env.caCert k).2 ≠ none) :
    ∀ (fuel i : Nat) (s : State),
      pollLoop env fuel i s = (none, { s with trace := s.trace ++ failedPolls fuel })
  | 0, _, s => by simp [pollLoop, failedPolls]
  | fuel + 1, i, s => by
    rcases hc : env.caCert i with ⟨v, _ | e⟩
    · exact absurd (by rw [hc]) (hfail i)
    · simp only [pollLoop, hc]
      rw [pollLoop_failing env hfail fuel (i + 1)]
      simp [State.emit, failedPolls]

theorem pollLoop_succeeding (env : Env) (m : String) :
    ∀ (n fuel i : Nat) (s : State), (∀ k < n, (env.caCert (i + k)).2 ≠ none) →
      env.caCert (i + n) = (m, none) → n + 1 ≤ fuel →
      pollLoop env fuel i s = (some m, { s with trace := s.trace ++ failedPolls n ++ [.caCert] })
  | _, 0, _, _, _, _, hfuel => by omega
  | 0, fuel + 1, i, s, _, hok, _ => by
    simp only [Nat.add_zero] at hok
    simp [pollLoop, hok, failedPolls, State.emit]
  | n + 1, fuel + 1, i, s, hfail, hok, hfuel => by
    rcases hc : env.caCert i with ⟨v, _ | e⟩
    · exact absurd (by rw [Nat.add_zero, hc]) (hfail 0 (Nat.succ_pos n))
    · simp only [pollLoop, hc]
      rw [pollLoop_succeeding env m n fuel (i + 1) _
        (fun k hk => by
          have := hfail (k + 1) (by omega)
          rwa [show i + (k + 1) = i + 1 + k by omega] at this)
        (by rwa [show i + (n + 1) = i + 1 + n by omega] at hok) (by omega)]
      simp [State.emit, failedPolls]

theorem countP_isPoll_failedPolls (n : Nat) : (failedPolls n).countP Event.isPoll = n := by
  induction n with
  | zero => rfl
  | succ n ih =>
    simp only [failedPolls, List.cons_append, List.nil_append, List.countP_cons, ih, Event.isPoll]
    simp

theorem countP_isSleep_failedPolls (n : Nat) : (failedPolls n).countP Event.isSleep = n := by
  induction n with
  | zero => rfl
  | succ n ih =>
    simp only [failedPolls, List.cons_append, List.nil_append, List.countP_cons, ih, Event.isSleep]
    simp

theorem startNorman_succeeding (env : Env) (ctx : Context) (tlsConfig : UserConfig)
    (config : Control) (s : State) (n : Nat) (m : String) (fuel : Nat)
    (hbuild : env.normanBuild ctx config = none)
    (hfail : ∀ k < n, (env.caCert k).2 ≠ none) (hok : env.caCert n = (m, none))
    (hfuel : n + 1 ≤ fuel) :
    startNorman env ctx tlsConfig config fuel s =
      (some (m, none),
        { s with trace := s.trace ++ [.normanBuild] ++ failedPolls n ++ [.caCert] }) := by
  simp only [startNorman, hbuild]
  rw [pollLoop_succeeding env m n fuel 0 _ (by simpa using hfail) (by simpa using hok) hfuel]
  simp [State.emit]

theorem startNorman_failing (env : Env) (ctx : Context) (tlsConfig : UserConfig)
    (config : Control) (s : State) (fuel : Nat)
    (hbuild : env.normanBuild ctx config = none)
    (hfail : ∀ k, (env.caCert k).2 ≠ none) :
    startNorman env ctx tlsConfig config fuel s =
      (none, { s with trace := s.trace ++ [.normanBuild] ++ failedPolls fuel }) := by
  simp only [startNorman, hbuild]
  rw [pollLoop_failing env hfail fuel 0]
  simp [State.emit]

theorem StartServer_polling (env : Env) (ctx : Context) (config : Config) (s s1 : State)
    (c1 c2 : Control) (fuel : Nat)
    (hsetup : setupDataDirAndChdir env config.ControlConfig s = (none, c1, s1))
    (hctl : env.controlServer ctx c1 = (c2, none))
    (hbuild : env.normanBuild ctx c2 = none)
    (hfail : ∀ k, (env.caCert k).2 ≠ none) :
    StartServer env ctx config fuel s =
      (none, { s1 with trace := s1.trace ++ [.controlServer, .normanBuild] ++ failedPolls fuel }) := by
  simp only [StartServer, hsetup, hctl]
  rw [startNorman_failing env ctx _ c2 _ fuel hbuild hfail]
  simp [State.emit]

theorem StartServer_after_norman (env : Env) (ctx : Context) (config : Config) (fuel : Nat)
    (s s1 s2 : State) (c1 c2 : Control) (m : String)
    (hsetup : setupDataDirAndChdir env config.ControlConfig s = (none, c1, s1))
    (hctl : env.controlServer ctx c1 = (c2, none))
    (hnorman : startNorman env ctx config.TLSConfig c2 fuel (s1.emit .controlServer)
      = (some (m, none), s2)) :
    (StartServer env ctx config fuel s).1 = some (m, none) := by
  simp only [StartServer, hsetup, hctl, hnorman]

theorem StartServer_control_failing (env : Env) (ctx : Context) (config : Config) (fuel : Nat)
    (s s1 : State) (c1 c2 : Control) (err : Error)
    (hsetup : setupDataDirAndChdir env config.ControlConfig s = (none, c1, s1))
    (hctl : env.controlServer ctx c1 = (c2, some err)) :
    StartServer env ctx config fuel s =
      (some ("", some (wrap err "starting kubernetes")), s1.emit .controlServer) := by
  simp only [StartServer, hsetup, hctl]

theorem pollLoop_congr (env env' : Env) (h : env'.caCert = env.caCert) :
    ∀ (fuel i : Nat) (s : State), pollLoop env' fuel i s = pollLoop env fuel i s
  | 0, _, _ => rfl
  | fuel + 1, i, s => by
    simp only [pollLoop, h]
    rcases env.caCert i with ⟨v, _ | e⟩
    · rfl
    · exact pollLoop_congr env env' h fuel (i + 1) _

theorem startNorman_congr (env env' : Env) (hb : env'.normanBuild = env.normanBuild)
    (hc : env'.caCert = env.caCert) (ctx : Context) (tlsConfig : UserConfig) (config : Control)
    (fuel : Nat) (s : State) :
    startNorman env' ctx tlsConfig config fuel s = startNorman env ctx tlsConfig config fuel s := by
  simp only [startNorman, hb, pollLoop_congr env env' hc]

/-! ## The bootstrap sequence: the claims -/

/-- C7: once directory setup, the control-plane start and the front-end build have succeeded and
the poll loop has obtained the material m, `StartServer` returns m without error whatever the later
collaborators do: whether opening or writing the node-token file fails, whether the client
configuration can be generated, whether the file mode parses and can be applied, and whether a
host interface is found. -/
theorem StartServer_best_effort (env : Env) (ctx : Context) (config : Config) (fuel : Nat)
    (s s1 s2 : State) (c1 c2 : Control) (m : String)
    (hsetup : setupDataDirAndChdir env config.ControlConfig s = (none, c1, s1))
    (hctl : env.controlServer ctx c1 = (c2, none))
    (hnorman : startNorman env ctx config.TLSConfig c2 fuel (s1.emit .controlServer)
      = (some (m, none), s2))
    (openErr : String → Option Error) (writeFault : String → Option (Nat × Error))
    (agent : FS → String → String → String → FS × Option Error)
    (parseInt : String → Int × Option Error) (chmodErr : String → Option Error)
    (chooseHostInterface : String × Option Error) (umask : Nat) :
    (StartServer
      { env with
        openErr := openErr, writeFault := writeFault, agentAccessInfoToKubeConfig := agent,
        parseInt := parseInt, chmodErr := chmodErr, chooseHostInterface := chooseHostInterface,
        umask := umask } ctx config fuel s).1 = some (m, none) := by
  apply StartServer_after_norman _ ctx config fuel s s1 s2 c1 c2 m
  · exact hsetup
  · exact hctl
  · refine Eq.trans (startNorman_congr env _ ?_ ?_ ctx config.TLSConfig c2 fuel _) hnorman <;> rfl

/-- C7, on the sample configuration with every later collaborator failing. -/
theorem StartServer_best_effort_witness :
    (StartServer failingEnv liveContext sampleConfig 4 emptyState).1 = some ("CA", none) :=
  StartServer_best_effort sampleEnv liveContext sampleConfig 4 emptyState
    (setupDataDirAndChdir sampleEnv sampleConfig.ControlConfig emptyState).2.2
    (startNorman sampleEnv liveContext sampleConfig.TLSConfig
      (setupDataDirAndChdir sampleEnv sampleConfig.ControlConfig emptyState).2.1 4
      ((setupDataDirAndChdir sampleEnv sampleConfig.ControlConfig emptyState).2.2.emit
        .controlServer)).2
    (setupDataDirAndChdir sampleEnv sampleConfig.ControlConfig emptyState).2.1
    (setupDataDirAndChdir sampleEnv sampleConfig.ControlConfig emptyState).2.1
    "CA" rfl rfl rfl
    failingEnv.openErr failingEnv.writeFault failingEnv.agentAccessInfoToKubeConfig
    failingEnv.parseInt failingEnv.chmodErr failingEnv.chooseHostInterface failingEnv.umask

/-- C8: if directory setup succeeded and `control.Server` returns an error, `StartServer` returns
the empty material with the error wrapped as `starting kubernetes`, the files are exactly those
present before the call, and the only actions taken are the directory setup and the control-plane
call: the front-end is not built and nothing is written. -/
theorem StartServer_control_error (env : Env) (ctx : Context) (config : Config) (fuel : Nat)
    (s s1 : State) (c1 c2 : Control) (err : Error)
    (hsetup : setupDataDirAndChdir env config.ControlConfig s = (none, c1, s1))
    (hctl : env.controlServer ctx c1 = (c2, some err)) :
    (StartServer env ctx config fuel s).1 = some ("", some (wrap err "starting kubernetes")) ∧
    (StartServer env ctx config fuel s).2.fs = s.fs ∧
    (StartServer env ctx config fuel s).2.trace =
      s.trace ++ [.mkdirAll c1.DataDir 0o700, .chdir c1.DataDir, .controlServer] := by
  obtain ⟨hfs, _, htr⟩ := setupDataDirAndChdir_ok env _ c1 s s1 hsetup
  rw [StartServer_control_failing env ctx config fuel s s1 c1 c2 err hsetup hctl]
  refine ⟨rfl, hfs, ?_⟩
  simp [State.emit, htr]

/-- C8, on the sample configuration with a control plane that fails to start. -/
theorem StartServer_control_error_witness :
    (StartServer brokenControlEnv liveContext sampleConfig 4 emptyState).1
        = some ("", some "starting kubernetes: etcd unavailable") ∧
      (StartServer brokenControlEnv liveContext sampleConfig 4 emptyState).2.fs = emptyState.fs :=
  ⟨(StartServer_control_error brokenControlEnv liveContext sampleConfig 4 emptyState
      (setupDataDirAndChdir brokenControlEnv sampleConfig.ControlConfig emptyState).2.2
      (setupDataDirAndChdir brokenControlEnv sampleConfig.ControlConfig emptyState).2.1
      (setupDataDirAndChdir brokenControlEnv sampleConfig.ControlConfig emptyState).2.1
      "etcd unavailable" rfl rfl).1,
    (StartServer_control_error brokenControlEnv liveContext sampleConfig 4 emptyState
      (setupDataDirAndChdir brokenControlEnv sampleConfig.ControlConfig emptyState).2.2
      (setupDataDirAndChdir brokenControlEnv sampleConfig.ControlConfig emptyState).2.1
      (setupDataDirAndChdir brokenControlEnv sampleConfig.ControlConfig emptyState).2.1
      "etcd unavailable" rfl rfl).2.1⟩

/-- C9: if the front-end is built and `CACert` returns an error on the first n polls and then
succeeds with m, then with fuel for at least n+1 iterations `startNorman` returns m without error;
it has called `CACert` exactly n+1 times and slept exactly n times, once after each failed call,
and the successful call is its last action. -/
theorem startNorman_polls_until_success (env : Env) (ctx : Context) (tlsConfig : UserConfig)
    (config : Control) (s : State) (n : Nat) (m : String) (fuel : Nat)
    (hbuild : env.normanBuild ctx config = none)
    (hfail : ∀ k < n, (env.caCert k).2 ≠ none) (hok : env.caCert n = (m, none))
    (hfuel : n + 1 ≤ fuel) :
    (startNorman env ctx tlsConfig config fuel s).1 = some (m, none) ∧
    (startNorman env ctx tlsConfig config fuel s).2.trace =
      s.trace ++ [.normanBuild] ++ failedPolls n ++ [.caCert] ∧
    (startNorman env ctx tlsConfig config fuel s).2.trace.countP Event.isPoll =
      s.trace.countP Event.isPoll + (n + 1) ∧
    (startNorman env ctx tlsConfig config fuel s).2.trace.countP Event.isSleep =
      s.trace.countP Event.isSleep + n ∧
    (startNorman env ctx tlsConfig config fuel s).2.fs = s.fs := by
  rw [startNorman_succeeding env ctx tlsConfig config s n m fuel hbuild hfail hok hfuel]
  refine ⟨rfl, rfl, ?_, ?_, rfl⟩
  · simp only [List.countP_append, countP_isPoll_failedPolls]
    simp [Event.isPoll]
    omega
  · simp only [List.countP_append, countP_isSleep_failedPolls]
    simp [Event.isSleep]

/-- C9, at n = 3: three failed polls, then success. -/
theorem startNorman_polls_until_success_witness :
    (∀ k < 3, (sampleEnv.caCert k).2 ≠ none) ∧ sampleEnv.caCert 3 = ("CA", none) ∧
    (startNorman sampleEnv liveContext sampleConfig.TLSConfig sampleConfig.ControlConfig 4
      emptyState).1 = some ("CA", none) ∧
    (startNorman sampleEnv liveContext sampleConfig.TLSConfig sampleConfig.ControlConfig 4
      emptyState).2.trace.countP Event.isSleep = 0 + 3 :=
  ⟨by decide, rfl,
    (startNorman_polls_until_success sampleEnv liveContext sampleConfig.TLSConfig
      sampleConfig.ControlConfig emptyState 3 "CA" 4 rfl (by decide) rfl (by decide)).1,
    (startNorman_polls_until_success sampleEnv liveContext sampleConfig.TLSConfig
      sampleConfig.ControlConfig emptyState 3 "CA" 4 rfl (by decide) rfl (by decide)).2.2.2.1⟩

/-- C10 (as amended): the poll loop does not observe cancellation.  If directory setup, the
control-plane start and the front-end build succeeded and `CACert` keeps returning errors, then
for every context, cancelled or not, and every number of iterations, `StartServer` has not
returned and has spent each iteration on one call of `CACert`, one log line and one sleep. -/
theorem StartServer_polls_while_CACert_fails (env : Env) (ctx : Context) (config : Config)
    (s s1 : State) (c1 c2 : Control)
    (hsetup : setupDataDirAndChdir env config.ControlConfig s = (none, c1, s1))
    (hctl : env.controlServer ctx c1 = (c2, none))
    (hbuild : env.normanBuild ctx c2 = none)
    (hfail : ∀ k, (env.caCert k).2 ≠ none) (fuel : Nat) :
    (StartServer env ctx config fuel s).1 = none ∧
    (StartServer env ctx config fuel s).2.trace =
      s1.trace ++ [.controlServer, .normanBuild] ++ failedPolls fuel ∧
    (failedPolls fuel).countP Event.isPoll = fuel ∧
    (failedPolls fuel).countP Event.isSleep = fuel := by
  rw [StartServer_polling env ctx config s s1 c1 c2 fuel hsetup hctl hbuild hfail]
  exact ⟨rfl, rfl, countP_isPoll_failedPolls fuel, countP_isSleep_failedPolls fuel⟩

/-- C10 (as amended), on the sample configuration with a cancelled context, after 5 iterations. -/
theorem StartServer_polls_while_CACert_fails_witness :
    cancelledContext.cancelled 0 = true ∧
    (StartServer stuckEnv cancelledContext sampleConfig 5 emptyState).1 = none :=
  ⟨rfl,
    (StartServer_polls_while_CACert_fails stuckEnv cancelledContext sampleConfig emptyState
      (setupDataDirAndChdir stuckEnv sampleConfig.ControlConfig emptyState).2.2
      (setupDataDirAndChdir stuckEnv sampleConfig.ControlConfig emptyState).2.1
      (setupDataDirAndChdir stuckEnv sampleConfig.ControlConfig emptyState).2.1
      rfl rfl rfl (fun _ => by simp [stuckEnv]) 5).1⟩

/-- C10 fails as stated: with a context that is cancelled at every iteration boundary and a
front-end whose `CACert` keeps failing, `StartServer` has not returned after any number of
iterations, and has polled once in each of them. -/
theorem StartServer_ignores_cancellation :
    (∀ k, cancelledContext.cancelled k = true) ∧
    (∀ k, (stuckEnv.caCert k).2 ≠ none) ∧
    (∀ fuel,
      (StartServer stuckEnv cancelledContext sampleConfig fuel emptyState).1 = none ∧
      (StartServer stuckEnv cancelledContext sampleConfig fuel emptyState).2.trace.countP
        Event.isPoll = fuel) := by
  have hfail : ∀ k, (stuckEnv.caCert k).2 ≠ none := fun _ => by simp [stuckEnv]
  refine ⟨fun _ => rfl, hfail, fun fuel => ?_⟩
  rw [StartServer_polling stuckEnv cancelledContext sampleConfig emptyState
    (setupDataDirAndChdir stuckEnv sampleConfig.ControlConfig emptyState).2.2
    (setupDataDirAndChdir stuckEnv sampleConfig.ControlConfig emptyState).2.1
    (setupDataDirAndChdir stuckEnv sampleConfig.ControlConfig emptyState).2.1
    fuel rfl rfl rfl hfail]
  refine ⟨rfl, ?_⟩
  simp only [List.countP_append, countP_isPoll_failedPolls]
  have : (setupDataDirAndChdir stuckEnv sampleConfig.ControlConfig emptyState).2.2.trace
      = [.mkdirAll "/data/server" 0o700, .chdir "/data/server"] := by
    rfl
  rw [this]
  simp [Event.isPoll]

end K3s
